import Mathlib

/-!
Shallow embedding of the three scripts of the repository
(`fix_auth.py`, `reset_password.py`, `test_login_direct.py`).

HTTP traffic is modelled by parameters: the status code and the parsed
JSON body of the user-list fetch, and the status codes of the update
calls.  Each function returns the list of update calls it issued
(path identifier and JSON payload) together with its counters or
outcome; a run that would raise a Python `TypeError`/`AttributeError`
returns `none`.
-/

/-- JSON values as produced by `response.json()`.  A JSON object becomes a
Python dict (unique keys), JSON `null` becomes Python `None`. -/
inductive JValue where
  | null
  | bool (b : Bool)
  | num (n : Int)
  | str (s : String)
  | arr (elems : List JValue)
  | obj (fields : List (String × JValue))

/-- Python `d.get(k)` on a parsed dict: the value under the first (unique)
matching key, or `none` when the key is absent. -/
def lookupKey (k : String) : List (String × JValue) → Option JValue
  | [] => none
  | (k', v) :: rest => if k' = k then some v else lookupKey k rest

/-- Python truthiness of a parsed JSON value (`if v:`). -/
def truthy : JValue → Bool
  | .null => false
  | .bool b => b
  | .num n => n != 0
  | .str s => s != ""
  | .arr xs => !xs.isEmpty
  | .obj kvs => !kvs.isEmpty

/-- Python truthiness of a `d.get(k)` result: `None` (absent key) is falsy. -/
def optTruthy : Option JValue → Bool
  | none => false
  | some v => truthy v

/-- Python iteration (and `len`) over a value: lists yield their elements,
strings their one-character substrings, dicts their keys; `None`, numbers
and booleans raise a `TypeError` (modelled as `none`). -/
def pyIter : JValue → Option (List JValue)
  | .arr xs => some xs
  | .str s => some (s.data.map fun c => .str (String.mk [c]))
  | .obj kvs => some (kvs.map fun kv => .str kv.1)
  | _ => none

/-- One `PUT /auth/v1/admin/users/.../` request: the value interpolated into
the URL path segment (`none` models a missing `id`, Python `None`) and the
JSON payload sent as the request body. -/
structure UpdateCall where
  path_id : Option JValue
  body : JValue

/-! ## fix_auth.py -/

/-- Observable outcome of one run of `fix_email_confirmation`:
whether the run aborted at the fetch stage, the update calls issued in
order, the three tally counters, and the `email` labels of the processed
dict records (the argument of the per-user status prints, with default
label `"unknown"` when the `email` key is absent). -/
structure FixResult where
  aborted : Bool
  calls : List UpdateCall
  fixed_count : Nat
  already_confirmed : Nat
  errors : Nat
  labels : List JValue

/-- The value iterated over by the fixer's loop:
`data.get('users', [])` for a dict response, the response itself for a
list response, and `[]` for any other shape. -/
def fixUsersVal : JValue → JValue
  | .obj kvs => (lookupKey "users" kvs).getD (.arr [])
  | .arr xs => .arr xs
  | _ => .arr []

/-- One iteration of the fixer's loop over a fetched record.
`updStatus n` is the HTTP status of the `n`-th update call of the run.
A non-dict record is skipped (logged only).  For a dict record the
confirmation field is read with `get`, and when it is falsy an update
call with payload setting `email_confirmed_at` is issued; its status
decides between the fixed and the error counter. -/
def fixStep (now : String) (updStatus : Nat → Nat) (st : FixResult) (user : JValue) : FixResult :=
  match user with
  | .obj kvs =>
    if !(optTruthy (lookupKey "email_confirmed_at" kvs)) then
      if updStatus st.calls.length = 200 then
        { st with
          labels := st.labels ++ [(lookupKey "email" kvs).getD (.str "unknown")],
          calls := st.calls ++
            [⟨lookupKey "id" kvs, .obj [("email_confirmed_at", .str (now ++ "Z"))]⟩],
          fixed_count := st.fixed_count + 1 }
      else
        { st with
          labels := st.labels ++ [(lookupKey "email" kvs).getD (.str "unknown")],
          calls := st.calls ++
            [⟨lookupKey "id" kvs, .obj [("email_confirmed_at", .str (now ++ "Z"))]⟩],
          errors := st.errors + 1 }
    else
      { st with
        labels := st.labels ++ [(lookupKey "email" kvs).getD (.str "unknown")],
        already_confirmed := st.already_confirmed + 1 }
  | _ => st

/-- `fix_email_confirmation`: abort on a non-200 fetch; otherwise
normalise the response shape, and process each record in order.
`now` is the string returned by `datetime.utcnow().isoformat()`;
the payload timestamp is `now` with `"Z"` appended.  `none` models the
`TypeError` raised by `len`/iteration when the normalised user value is
not a list, string or dict. -/
def fix_email_confirmation (fetchStatus : Nat) (data : JValue) (now : String)
    (updStatus : Nat → Nat) : Option FixResult :=
  if fetchStatus ≠ 200 then
    some ⟨true, [], 0, 0, 0, []⟩
  else
    match pyIter (fixUsersVal data) with
    | none => none
    | some users => some (users.foldl (fixStep now updStatus) ⟨false, [], 0, 0, 0, []⟩)

/-- The update call a single fetched record gives rise to: a dict record
with a falsy confirmation field yields one call (path from its `id`,
payload setting the confirmation timestamp); every other record yields
none. -/
def callFor (now : String) : JValue → Option UpdateCall
  | .obj kvs =>
    if !(optTruthy (lookupKey "email_confirmed_at" kvs)) then
      some ⟨lookupKey "id" kvs, .obj [("email_confirmed_at", .str (now ++ "Z"))]⟩
    else none
  | _ => none

/-- The `email` label a single fetched record contributes to the log:
dict records contribute `get('email')` with default `"unknown"`,
non-dict records are skipped. -/
def labelFor : JValue → Option JValue
  | .obj kvs => some ((lookupKey "email" kvs).getD (.str "unknown"))
  | _ => none

/-- A record counts toward the tallies exactly when it is a dict. -/
def isMappingRecord : JValue → Bool
  | .obj _ => true
  | _ => false

/-! ## reset_password.py -/

/-- Outcome tag of one run of `reset_password`. -/
inductive ResetOutcome where
  | fetchFailed
  | badFormat
  | notFound
  | updated (status : Nat)

/-- Observable outcome of one run of `reset_password`: the update calls
issued (the straight-line code can issue at most one) and the outcome tag. -/
structure ResetResult where
  calls : List UpdateCall
  outcome : ResetOutcome

/-- The loop test of the reset tool's scan:
`isinstance(user, dict) and user.get('email') == email`.  Comparing a
non-string (or absent) field value with the target string is `False` in
Python. -/
def matchesEmail (email : String) : JValue → Bool
  | .obj kvs =>
    match lookupKey "email" kvs with
    | some (.str s) => s = email
    | _ => false
  | _ => false

/-- `target_user.get('id')` for a dict record. -/
def recordId : JValue → Option JValue
  | .obj kvs => lookupKey "id" kvs
  | _ => none

/-- The normalised user list the reset tool scans: `data.get('users', [])`
iterated for a dict response, the list itself for a list response;
`none` for any other shape (the tool prints an error and returns) and
for a non-iterable `users` value (`TypeError`). -/
def resetUsers : JValue → Option (List JValue)
  | .obj kvs => pyIter ((lookupKey "users" kvs).getD (.arr []))
  | .arr xs => some xs
  | _ => none

/-- The scan and update of `reset_password`: take the first record
matching the target email; on the (unreachable for a match) falsy
record, or no match, report not-found; otherwise issue one update call
replacing the `password` field for that record's `id`. -/
def resetScan (email new_password : String) (updStatus : Nat)
    (users : List JValue) : ResetResult :=
  match users.find? (matchesEmail email) with
  | none => ⟨[], .notFound⟩
  | some target =>
    if !(truthy target) then ⟨[], .notFound⟩
    else ⟨[⟨recordId target, .obj [("password", .str new_password)]⟩], .updated updStatus⟩

/-- `reset_password`: abort on a non-200 fetch; on a response that is
neither dict nor list print an error and return; otherwise scan the
normalised list.  `updStatus` is the HTTP status of the single possible
update call; `none` models a `TypeError` iterating a non-iterable
`users` value. -/
def reset_password (email new_password : String) (fetchStatus : Nat) (data : JValue)
    (updStatus : Nat) : Option ResetResult :=
  if fetchStatus ≠ 200 then some ⟨[], .fetchFailed⟩
  else
    match data with
    | .obj kvs =>
      match pyIter ((lookupKey "users" kvs).getD (.arr [])) with
      | none => none
      | some users => some (resetScan email new_password updStatus users)
    | .arr xs => some (resetScan email new_password updStatus xs)
    | _ => some ⟨[], .badFormat⟩

/-! ## test_login_direct.py -/

/-- Python slicing `v[:50]` succeeds on strings and lists and raises a
`TypeError` on every other JSON value. -/
def sliceable : JValue → Bool
  | .str _ => true
  | .arr _ => true
  | _ => false

/-- `test_login`: on a non-200 token response return `False`; on a 200
response read the parsed body (`data.get('access_token', 'N/A')[:50]`
and `data.get('user', dict()).get('id', 'N/A')`) and return `True`.
`none` models the `AttributeError`/`TypeError` raised when the 200 body
is not a dict, its `access_token` value is unsliceable, or its `user`
value is not a dict. -/
def test_login (status : Nat) (data : JValue) : Option Bool :=
  if status = 200 then
    match data with
    | .obj kvs =>
      if sliceable ((lookupKey "access_token" kvs).getD (.str "N/A")) then
        match (lookupKey "user" kvs).getD (.obj []) with
        | .obj _ => some true
        | _ => none
      else none
    | _ => none
  else some false

/-- A 200 token-response body of the documented interface shape: a dict
whose `access_token` value is a string and whose `user` value, when
present, is a dict. -/
def tokenBodyOk : JValue → Bool
  | .obj kvs =>
    (match lookupKey "access_token" kvs with
      | none => true
      | some (.str _) => true
      | some _ => false) &&
    (match lookupKey "user" kvs with
      | none => true
      | some (.obj _) => true
      | some _ => false)
  | _ => false

/-! ## ISO-8601 shape of the payload timestamp -/

/-- Character shape of `datetime.utcnow().isoformat()`:
`YYYY-MM-DDTHH:MM:SS` optionally followed by `.ffffff`. -/
def isoDateTimeChars : List Char → Bool
  | [y1, y2, y3, y4, '-', o1, o2, '-', d1, d2, 'T',
     h1, h2, ':', m1, m2, ':', s1, s2] =>
    [y1, y2, y3, y4, o1, o2, d1, d2, h1, h2, m1, m2, s1, s2].all Char.isDigit
  | [y1, y2, y3, y4, '-', o1, o2, '-', d1, d2, 'T',
     h1, h2, ':', m1, m2, ':', s1, s2, '.', f1, f2, f3, f4, f5, f6] =>
    [y1, y2, y3, y4, o1, o2, d1, d2, h1, h2, m1, m2,
     s1, s2, f1, f2, f3, f4, f5, f6].all Char.isDigit
  | _ => false

/-- An ISO-8601 UTC timestamp string ending in `Z`: a `Z` final character
preceded by the `isoformat` date-time shape. -/
def iso8601Z (s : String) : Bool :=
  (s.data.getLast? == some 'Z') && isoDateTimeChars s.data.dropLast

/-- A JSON value of one of the two accepted list-fetch response shapes. -/
def isMappingOrSeq : JValue → Bool
  | .obj _ => true
  | .arr _ => true
  | _ => false

/-! ## Loop invariants of the fixer -/

theorem foldl_fixStep_calls (now : String) (upd : Nat → Nat) (users : List JValue) :
    ∀ st : FixResult,
      (users.foldl (fixStep now upd) st).calls = st.calls ++ users.filterMap (callFor now) := by
  induction users with
  | nil => intro st; simp
  | cons u rest ih =>
    intro st
    rw [List.foldl_cons, ih, List.filterMap_cons]
    cases u with
    | obj kvs =>
      simp only [fixStep, callFor]
      cases h : optTruthy (lookupKey "email_confirmed_at" kvs) with
      | false => by_cases h2 : upd st.calls.length = 200 <;> simp [h2]
      | true => simp
    | null => simp [fixStep, callFor]
    | bool b => simp [fixStep, callFor]
    | num n => simp [fixStep, callFor]
    | str s => simp [fixStep, callFor]
    | arr xs => simp [fixStep, callFor]

theorem foldl_fixStep_labels (now : String) (upd : Nat → Nat) (users : List JValue) :
    ∀ st : FixResult,
      (users.foldl (fixStep now upd) st).labels = st.labels ++ users.filterMap labelFor := by
  induction users with
  | nil => intro st; simp
  | cons u rest ih =>
    intro st
    rw [List.foldl_cons, ih, List.filterMap_cons]
    cases u with
    | obj kvs =>
      simp only [fixStep, labelFor]
      cases h : optTruthy (lookupKey "email_confirmed_at" kvs) with
      | false => by_cases h2 : upd st.calls.length = 200 <;> simp [h2]
      | true => simp
    | null => simp [fixStep, labelFor]
    | bool b => simp [fixStep, labelFor]
    | num n => simp [fixStep, labelFor]
    | str s => simp [fixStep, labelFor]
    | arr xs => simp [fixStep, labelFor]

theorem foldl_fixStep_sum (now : String) (upd : Nat → Nat) (users : List JValue) :
    ∀ st : FixResult,
      (users.foldl (fixStep now upd) st).fixed_count +
        (users.foldl (fixStep now upd) st).already_confirmed +
        (users.foldl (fixStep now upd) st).errors =
      st.fixed_count + st.already_confirmed + st.errors +
        users.countP isMappingRecord := by
  induction users with
  | nil => intro st; simp
  | cons u rest ih =>
    intro st
    rw [List.foldl_cons, ih, List.countP_cons]
    cases u with
    | obj kvs =>
      simp only [fixStep, isMappingRecord]
      cases h : optTruthy (lookupKey "email_confirmed_at" kvs) with
      | false => by_cases h2 : upd st.calls.length = 200 <;> simp [h2] <;> omega
      | true => simp; omega
    | null => simp [fixStep, isMappingRecord]
    | bool b => simp [fixStep, isMappingRecord]
    | num n => simp [fixStep, isMappingRecord]
    | str s => simp [fixStep, isMappingRecord]
    | arr xs => simp [fixStep, isMappingRecord]

theorem length_filterMap_labelFor (users : List JValue) :
    (users.filterMap labelFor).length = users.countP isMappingRecord := by
  induction users with
  | nil => rfl
  | cons u rest ih =>
    rw [List.filterMap_cons, List.countP_cons]
    cases u <;> simp [labelFor, isMappingRecord, ih]

/-- A 200 run of the fixer whose normalised user value iterates is the fold
of `fixStep` over the resulting list. -/
theorem fix_run_eq (data : JValue) (now : String) (upd : Nat → Nat)
    (users : List JValue) (r : FixResult)
    (husers : pyIter (fixUsersVal data) = some users)
    (hrun : fix_email_confirmation 200 data now upd = some r) :
    r = users.foldl (fixStep now upd) ⟨false, [], 0, 0, 0, []⟩ := by
  simp only [fix_email_confirmation, ne_eq, not_true_eq_false, if_false, husers,
    Option.some.injEq] at hrun
  exact hrun.symm

/-! ## Helper lemmas for the reset tool and the timestamp shape -/

theorem truthy_of_matchesEmail {email : String} {u : JValue}
    (h : matchesEmail email u = true) : truthy u = true := by
  cases u with
  | obj kvs =>
    cases kvs with
    | nil => simp [matchesEmail, lookupKey] at h
    | cons kv rest => simp [truthy]
  | null => simp [matchesEmail] at h
  | bool b => simp [matchesEmail] at h
  | num n => simp [matchesEmail] at h
  | str s => simp [matchesEmail] at h
  | arr xs => simp [matchesEmail] at h

theorem resetScan_of_find (email pw : String) (us : Nat) (users : List JValue)
    (u : JValue) (hfind : users.find? (matchesEmail email) = some u) :
    resetScan email pw us users =
      ⟨[⟨recordId u, .obj [("password", .str pw)]⟩], .updated us⟩ := by
  have ht : truthy u = true := truthy_of_matchesEmail (List.find?_some hfind)
  simp [resetScan, hfind, ht]

theorem resetScan_of_find_none (email pw : String) (us : Nat) (users : List JValue)
    (hfind : users.find? (matchesEmail email) = none) :
    resetScan email pw us users = ⟨[], .notFound⟩ := by
  simp [resetScan, hfind]

/-- A 200 run of the reset tool whose normalised user list exists is the
scan of that list. -/
theorem reset_run_eq (email pw : String) (data : JValue) (us : Nat)
    (users : List JValue) (r : ResetResult)
    (husers : resetUsers data = some users)
    (hrun : reset_password email pw 200 data us = some r) :
    r = resetScan email pw us users := by
  cases data with
  | obj kvs =>
    simp only [resetUsers] at husers
    simp only [reset_password, ne_eq, not_true_eq_false, if_false, husers,
      Option.some.injEq] at hrun
    exact hrun.symm
  | arr xs =>
    simp only [resetUsers, Option.some.injEq] at husers
    subst husers
    simp only [reset_password, ne_eq, not_true_eq_false, if_false,
      Option.some.injEq] at hrun
    exact hrun.symm
  | null => simp [resetUsers] at husers
  | bool b => simp [resetUsers] at husers
  | num n => simp [resetUsers] at husers
  | str s => simp [resetUsers] at husers

/-- A 200 run of the reset tool on a first match: one update call keyed by
the record's `id`, with the password payload. -/
theorem reset_run_first_match (email pw : String) (data : JValue) (us : Nat)
    (users : List JValue) (u : JValue) (r : ResetResult)
    (husers : resetUsers data = some users)
    (hfind : users.find? (matchesEmail email) = some u)
    (hrun : reset_password email pw 200 data us = some r) :
    r = ⟨[⟨recordId u, .obj [("password", .str pw)]⟩], .updated us⟩ := by
  rw [reset_run_eq email pw data us users r husers hrun,
    resetScan_of_find email pw us users u hfind]

theorem callFor_body (now : String) (a : JValue) (c : UpdateCall)
    (h : callFor now a = some c) :
    c.body = .obj [("email_confirmed_at", .str (now ++ "Z"))] := by
  cases a with
  | obj kvs =>
    simp only [callFor] at h
    split at h
    · injection h with h; subst h; rfl
    · exact Option.noConfusion h
  | null => exact Option.noConfusion h
  | bool b => exact Option.noConfusion h
  | num n => exact Option.noConfusion h
  | str s => exact Option.noConfusion h
  | arr xs => exact Option.noConfusion h

theorem iso8601Z_append (now : String) (h : isoDateTimeChars now.data = true) :
    iso8601Z (now ++ "Z") = true := by
  have hd : (now ++ "Z").data = now.data ++ ['Z'] := String.data_append now "Z"
  simp [iso8601Z, hd, List.getLast?_concat, List.dropLast_concat, h]

/-! ## Claim theorems -/

/-- C1: in a 200 run of the bulk-confirmation fixer, the issued update
calls are exactly one per dict record whose `email_confirmed_at` field is
falsy (null, empty or absent) and none for the records whose field is
non-empty — `r.calls` is the `filterMap` of `callFor` over the fetched
list — and every issued payload sets the confirmation field to the
ISO-8601 timestamp `now` with `"Z"` appended. -/
theorem fix_confirmation_calls (data : JValue) (now : String) (upd : Nat → Nat)
    (users : List JValue) (r : FixResult)
    (hnow : isoDateTimeChars now.data = true)
    (husers : pyIter (fixUsersVal data) = some users)
    (hrun : fix_email_confirmation 200 data now upd = some r) :
    r.calls = users.filterMap (callFor now) ∧
    (∀ c ∈ r.calls, c.body = .obj [("email_confirmed_at", .str (now ++ "Z"))]) ∧
    iso8601Z (now ++ "Z") = true := by
  have hr := fix_run_eq data now upd users r husers hrun
  subst hr
  refine ⟨?_, ?_, iso8601Z_append now hnow⟩
  · rw [foldl_fixStep_calls]; rfl
  · intro c hc
    rw [foldl_fixStep_calls] at hc
    rcases List.mem_filterMap.mp hc with ⟨a, _, ha⟩
    exact callFor_body now a c ha

/-- C1 witness: a single unconfirmed record yields exactly the single
expected update call. -/
theorem fix_confirmation_calls_witness :
    (⟨false,
      [⟨some (.str "u1"), .obj [("email_confirmed_at", .str "2024-06-01T00:00:00Z")]⟩],
      1, 0, 0, [.str "a@x.com"]⟩ : FixResult).calls =
      List.filterMap (callFor "2024-06-01T00:00:00")
        [.obj [("id", .str "u1"), ("email", .str "a@x.com")]] ∧
    (∀ c ∈ (⟨false,
      [⟨some (.str "u1"), .obj [("email_confirmed_at", .str "2024-06-01T00:00:00Z")]⟩],
      1, 0, 0, [.str "a@x.com"]⟩ : FixResult).calls,
      c.body = .obj [("email_confirmed_at", .str ("2024-06-01T00:00:00" ++ "Z"))]) ∧
    iso8601Z ("2024-06-01T00:00:00" ++ "Z") = true :=
  fix_confirmation_calls
    (.arr [.obj [("id", .str "u1"), ("email", .str "a@x.com")]])
    "2024-06-01T00:00:00" (fun _ => 200)
    [.obj [("id", .str "u1"), ("email", .str "a@x.com")]]
    ⟨false,
      [⟨some (.str "u1"), .obj [("email_confirmed_at", .str "2024-06-01T00:00:00Z")]⟩],
      1, 0, 0, [.str "a@x.com"]⟩
    rfl rfl rfl

/-- C2: after a 200 run of the fixer, the three tally counters sum to the
number of records processed, namely the dict records of the fetched list;
non-dict records are skipped and excluded (the processed-record log
`labels` has exactly that length). -/
theorem fix_tally_sum (data : JValue) (now : String) (upd : Nat → Nat)
    (users : List JValue) (r : FixResult)
    (husers : pyIter (fixUsersVal data) = some users)
    (hrun : fix_email_confirmation 200 data now upd = some r) :
    r.fixed_count + r.already_confirmed + r.errors = users.countP isMappingRecord ∧
    r.labels.length = users.countP isMappingRecord := by
  have hr := fix_run_eq data now upd users r husers hrun
  subst hr
  constructor
  · rw [foldl_fixStep_sum]; simp
  · rw [foldl_fixStep_labels]
    simp [length_filterMap_labelFor]

/-- C2 witness: one unconfirmed dict record, one confirmed dict record and
one non-dict record give tallies summing to 2. -/
theorem fix_tally_sum_witness :
    (⟨false,
      [⟨some (.str "u1"), .obj [("email_confirmed_at", .str "2024-06-01T00:00:00Z")]⟩],
      1, 1, 0, [.str "a@x.com", .str "b@x.com"]⟩ : FixResult).fixed_count +
      (⟨false,
        [⟨some (.str "u1"), .obj [("email_confirmed_at", .str "2024-06-01T00:00:00Z")]⟩],
        1, 1, 0, [.str "a@x.com", .str "b@x.com"]⟩ : FixResult).already_confirmed +
      (⟨false,
        [⟨some (.str "u1"), .obj [("email_confirmed_at", .str "2024-06-01T00:00:00Z")]⟩],
        1, 1, 0, [.str "a@x.com", .str "b@x.com"]⟩ : FixResult).errors =
      List.countP isMappingRecord
        [.obj [("id", .str "u1"), ("email", .str "a@x.com")],
         .obj [("id", .str "u2"), ("email", .str "b@x.com"),
               ("email_confirmed_at", .str "2024-01-01T00:00:00Z")],
         .str "junk"] ∧
    (⟨false,
      [⟨some (.str "u1"), .obj [("email_confirmed_at", .str "2024-06-01T00:00:00Z")]⟩],
      1, 1, 0, [.str "a@x.com", .str "b@x.com"]⟩ : FixResult).labels.length =
      List.countP isMappingRecord
        [.obj [("id", .str "u1"), ("email", .str "a@x.com")],
         .obj [("id", .str "u2"), ("email", .str "b@x.com"),
               ("email_confirmed_at", .str "2024-01-01T00:00:00Z")],
         .str "junk"] :=
  fix_tally_sum
    (.arr [.obj [("id", .str "u1"), ("email", .str "a@x.com")],
           .obj [("id", .str "u2"), ("email", .str "b@x.com"),
                 ("email_confirmed_at", .str "2024-01-01T00:00:00Z")],
           .str "junk"])
    "2024-06-01T00:00:00" (fun _ => 200)
    [.obj [("id", .str "u1"), ("email", .str "a@x.com")],
     .obj [("id", .str "u2"), ("email", .str "b@x.com"),
           ("email_confirmed_at", .str "2024-01-01T00:00:00Z")],
     .str "junk"]
    ⟨false,
      [⟨some (.str "u1"), .obj [("email_confirmed_at", .str "2024-06-01T00:00:00Z")]⟩],
      1, 1, 0, [.str "a@x.com", .str "b@x.com"]⟩
    rfl rfl

/-- C4: a non-200 user-list fetch aborts the fixer's run: no update call
is issued, every tally counter stays at its initial value 0, and the run
is marked aborted. -/
theorem fix_fetch_abort (fs : Nat) (data : JValue) (now : String) (upd : Nat → Nat)
    (h : fs ≠ 200) :
    fix_email_confirmation fs data now upd = some ⟨true, [], 0, 0, 0, []⟩ := by
  simp [fix_email_confirmation, h]

/-- C4 witness: a 500 fetch aborts with empty calls and zero tallies. -/
theorem fix_fetch_abort_witness :
    fix_email_confirmation 500 (.arr [.obj [("id", .str "u1")]]) "2024-06-01T00:00:00"
      (fun _ => 200) = some ⟨true, [], 0, 0, 0, []⟩ :=
  fix_fetch_abort 500 (.arr [.obj [("id", .str "u1")]]) "2024-06-01T00:00:00"
    (fun _ => 200) (by decide)

/-- C5: on a 200 list-fetch body that is neither a dict nor a list, the
fixer degrades to an empty user list (a completed run with zero calls and
zero tallies) and the reset tool returns without scanning (zero calls,
bad-format outcome); neither raises. -/
theorem unexpected_shape_noop (data : JValue) (now : String) (upd : Nat → Nat)
    (email pw : String) (us : Nat) (h : isMappingOrSeq data = false) :
    fix_email_confirmation 200 data now upd = some ⟨false, [], 0, 0, 0, []⟩ ∧
    reset_password email pw 200 data us = some ⟨[], .badFormat⟩ := by
  cases data with
  | null => exact ⟨rfl, rfl⟩
  | bool b => exact ⟨rfl, rfl⟩
  | num n => exact ⟨rfl, rfl⟩
  | str s => exact ⟨rfl, rfl⟩
  | arr xs => simp [isMappingOrSeq] at h
  | obj kvs => simp [isMappingOrSeq] at h

/-- C5 witness: a bare number body yields a no-op fixer run and a
bad-format reset return. -/
theorem unexpected_shape_noop_witness :
    fix_email_confirmation 200 (.num 7) "2024-06-01T00:00:00" (fun _ => 200) =
      some ⟨false, [], 0, 0, 0, []⟩ ∧
    reset_password "a@x.com" "pw" 200 (.num 7) 200 = some ⟨[], .badFormat⟩ :=
  unexpected_shape_noop (.num 7) "2024-06-01T00:00:00" (fun _ => 200)
    "a@x.com" "pw" 200 rfl

/-- C3 counterexample: a fetched list in which two records match the
target email.  The claim says zero update calls are issued in that case;
the tool nevertheless issues the update call for the first match. -/
theorem reset_multi_match_issues_call :
    List.countP (matchesEmail "a@x.com")
      [JValue.obj [("id", .str "u1"), ("email", .str "a@x.com")],
       JValue.obj [("id", .str "u2"), ("email", .str "a@x.com")]] = 2 ∧
    reset_password "a@x.com" "pw" 200
      (.arr [.obj [("id", .str "u1"), ("email", .str "a@x.com")],
             .obj [("id", .str "u2"), ("email", .str "a@x.com")]]) 200 =
      some ⟨[⟨some (.str "u1"), .obj [("password", .str "pw")]⟩], .updated 200⟩ :=
  ⟨rfl, rfl⟩

/-- C3 amended: the password reset tool issues at most one update call,
and it issues a call exactly when the fetch succeeded and at least one
record of the normalised list matches the target email by exact string
equality (the first such record is used); with zero matching records, a
failed fetch, or an unusable response shape it issues zero calls. -/
theorem reset_at_most_one_call (email pw : String) (fs : Nat) (data : JValue)
    (us : Nat) (r : ResetResult)
    (hrun : reset_password email pw fs data us = some r) :
    r.calls.length ≤ 1 ∧
    (r.calls ≠ [] ↔ fs = 200 ∧ ∃ users, resetUsers data = some users ∧
      users.any (matchesEmail email) = true) := by
  by_cases hfs : fs = 200
  · subst hfs
    cases hu : resetUsers data with
    | some users =>
      have hr := reset_run_eq email pw data us users r hu hrun
      subst hr
      cases hf : users.find? (matchesEmail email) with
      | none =>
        rw [resetScan_of_find_none email pw us users hf]
        refine ⟨by simp, ?_⟩
        simp
        intro x hx
        simpa using List.find?_eq_none.mp hf x hx
      | some u =>
        rw [resetScan_of_find email pw us users u hf]
        refine ⟨by simp, ?_⟩
        constructor
        · intro _
          exact ⟨rfl, users, rfl,
            List.any_eq_true.mpr ⟨u, List.mem_of_find?_eq_some hf, List.find?_some hf⟩⟩
        · intro _
          simp
    | none =>
      have hr : r = ⟨[], .badFormat⟩ := by
        cases data with
        | obj kvs =>
          simp only [resetUsers] at hu
          simp only [reset_password, ne_eq, not_true_eq_false, if_false, hu] at hrun
          exact Option.noConfusion hrun
        | arr xs => exact absurd hu (by simp [resetUsers])
        | null =>
          simp only [reset_password, ne_eq, not_true_eq_false, if_false,
            Option.some.injEq] at hrun
          exact hrun.symm
        | bool b =>
          simp only [reset_password, ne_eq, not_true_eq_false, if_false,
            Option.some.injEq] at hrun
          exact hrun.symm
        | num n =>
          simp only [reset_password, ne_eq, not_true_eq_false, if_false,
            Option.some.injEq] at hrun
          exact hrun.symm
        | str s =>
          simp only [reset_password, ne_eq, not_true_eq_false, if_false,
            Option.some.injEq] at hrun
          exact hrun.symm
      subst hr
      refine ⟨by simp, ?_⟩
      simp
  · have hr : r = ⟨[], .fetchFailed⟩ := by
      simp only [reset_password, ne_eq, hfs, not_false_eq_true, if_true,
        Option.some.injEq] at hrun
      exact hrun.symm
    subst hr
    simp [hfs]

/-- C3 amended witness: one matching record yields one update call and the
match condition holds. -/
theorem reset_at_most_one_call_witness :
    (⟨[⟨some (.str "u1"), .obj [("password", .str "pw")]⟩],
      .updated 200⟩ : ResetResult).calls.length ≤ 1 ∧
    ((⟨[⟨some (.str "u1"), .obj [("password", .str "pw")]⟩],
      .updated 200⟩ : ResetResult).calls ≠ [] ↔ 200 = 200 ∧ ∃ users,
        resetUsers (.arr [.obj [("id", .str "u1"), ("email", .str "a@x.com")]]) =
          some users ∧
        users.any (matchesEmail "a@x.com") = true) :=
  reset_at_most_one_call "a@x.com" "pw" 200
    (.arr [.obj [("id", .str "u1"), ("email", .str "a@x.com")]]) 200
    ⟨[⟨some (.str "u1"), .obj [("password", .str "pw")]⟩], .updated 200⟩ rfl

/-- C6: on a 200 fetch the reset tool selects the first record of the
normalised list whose email field equals the target exactly, and issues a
single update request whose payload replaces only the `password` field,
keyed by that record's `id`. -/
theorem reset_first_match_update (email pw : String) (data : JValue) (us : Nat)
    (users : List JValue) (u : JValue) (r : ResetResult)
    (husers : resetUsers data = some users)
    (hfind : users.find? (matchesEmail email) = some u)
    (hrun : reset_password email pw 200 data us = some r) :
    r.calls = [⟨recordId u, .obj [("password", .str pw)]⟩] ∧
    r.outcome = .updated us := by
  have hr := reset_run_first_match email pw data us users u r husers hfind hrun
  subst hr
  exact ⟨rfl, rfl⟩

/-- C6 witness: with two matching records the first one (`u1`) is
selected and its password update is the single issued call. -/
theorem reset_first_match_update_witness :
    (⟨[⟨some (.str "u1"), .obj [("password", .str "pw")]⟩],
      .updated 200⟩ : ResetResult).calls =
      [⟨recordId (.obj [("id", .str "u1"), ("email", .str "a@x.com")]),
        .obj [("password", .str "pw")]⟩] ∧
    (⟨[⟨some (.str "u1"), .obj [("password", .str "pw")]⟩],
      .updated 200⟩ : ResetResult).outcome = .updated 200 :=
  reset_first_match_update "a@x.com" "pw"
    (.arr [.obj [("id", .str "u1"), ("email", .str "a@x.com")],
           .obj [("id", .str "u2"), ("email", .str "a@x.com")]]) 200
    [.obj [("id", .str "u1"), ("email", .str "a@x.com")],
     .obj [("id", .str "u2"), ("email", .str "a@x.com")]]
    (.obj [("id", .str "u1"), ("email", .str "a@x.com")])
    ⟨[⟨some (.str "u1"), .obj [("password", .str "pw")]⟩], .updated 200⟩
    rfl rfl rfl

/-- On a 200 token response whose body has the documented interface shape,
the login test reads the body successfully and returns `True`. -/
theorem test_login_200_of_tokenBodyOk (data : JValue) (h : tokenBodyOk data = true) :
    test_login 200 data = some true := by
  cases data with
  | obj kvs =>
    simp only [tokenBodyOk, Bool.and_eq_true] at h
    obtain ⟨h1, h2⟩ := h
    cases hat : lookupKey "access_token" kvs with
    | none =>
      cases hu : lookupKey "user" kvs with
      | none => simp [test_login, hat, hu, sliceable]
      | some w =>
        rw [hu] at h2
        cases w with
        | obj f => simp [test_login, hat, hu, sliceable]
        | null => simp at h2
        | bool b => simp at h2
        | num n => simp at h2
        | str s => simp at h2
        | arr xs => simp at h2
    | some v =>
      rw [hat] at h1
      cases v with
      | str s =>
        cases hu : lookupKey "user" kvs with
        | none => simp [test_login, hat, hu, sliceable]
        | some w =>
          rw [hu] at h2
          cases w with
          | obj f => simp [test_login, hat, hu, sliceable]
          | null => simp at h2
          | bool b => simp at h2
          | num n => simp at h2
          | str t => simp at h2
          | arr xs => simp at h2
      | null => simp at h1
      | bool b => simp at h1
      | num n => simp at h1
      | arr xs => simp at h1
      | obj f => simp at h1
  | null => simp [tokenBodyOk] at h
  | bool b => simp [tokenBodyOk] at h
  | num n => simp [tokenBodyOk] at h
  | str s => simp [tokenBodyOk] at h
  | arr xs => simp [tokenBodyOk] at h

/-- C7: for a token response body of the documented shape, the login test
returns `True` exactly when the token endpoint answered 200, and returns
`False` on every non-200 status. -/
theorem login_true_iff_200 (status : Nat) (data : JValue)
    (hbody : tokenBodyOk data = true) :
    (test_login status data = some true ↔ status = 200) ∧
    (status ≠ 200 → test_login status data = some false) := by
  by_cases hs : status = 200
  · subst hs
    exact ⟨⟨fun _ => rfl, fun _ => test_login_200_of_tokenBodyOk data hbody⟩,
      fun h => absurd rfl h⟩
  · refine ⟨⟨fun hl => ?_, fun h => absurd h hs⟩, fun _ => ?_⟩
    · simp [test_login, hs] at hl
    · simp [test_login, hs]

/-- C7 witness: a well-shaped token body gives `True` at 200. -/
theorem login_true_iff_200_witness :
    (test_login 200 (.obj [("access_token", .str "tok"),
        ("user", .obj [("id", .str "u1")])]) = some true ↔ 200 = 200) ∧
    (200 ≠ 200 → test_login 200 (.obj [("access_token", .str "tok"),
        ("user", .obj [("id", .str "u1")])]) = some false) :=
  login_true_iff_200 200
    (.obj [("access_token", .str "tok"), ("user", .obj [("id", .str "u1")])]) rfl

/-- C8: the fixer does not guard against a missing `id`: a dict record of
the fetched list without an `id` key and with a falsy confirmation field
still gives rise to an issued update call whose URL path segment value is
the missing identifier (Python `None`). -/
theorem fix_missing_id_update (data : JValue) (now : String) (upd : Nat → Nat)
    (users : List JValue) (kvs : List (String × JValue)) (r : FixResult)
    (husers : pyIter (fixUsersVal data) = some users)
    (hrun : fix_email_confirmation 200 data now upd = some r)
    (hmem : JValue.obj kvs ∈ users)
    (hid : lookupKey "id" kvs = none)
    (hconf : optTruthy (lookupKey "email_confirmed_at" kvs) = false) :
    ∃ c ∈ r.calls, c.path_id = none ∧
      c.body = .obj [("email_confirmed_at", .str (now ++ "Z"))] := by
  have hr := fix_run_eq data now upd users r husers hrun
  subst hr
  rw [foldl_fixStep_calls]
  refine ⟨⟨none, .obj [("email_confirmed_at", .str (now ++ "Z"))]⟩, ?_, rfl, rfl⟩
  have hc : callFor now (.obj kvs) =
      some ⟨none, .obj [("email_confirmed_at", .str (now ++ "Z"))]⟩ := by
    simp [callFor, hconf, hid]
  exact List.mem_filterMap.mpr ⟨.obj kvs, hmem, hc⟩

/-- C8 witness: a record with only an email field yields the update call
with the missing path identifier. -/
theorem fix_missing_id_update_witness :
    ∃ c ∈ (⟨false,
      [⟨none, .obj [("email_confirmed_at", .str "2024-06-01T00:00:00Z")]⟩],
      1, 0, 0, [.str "a@x.com"]⟩ : FixResult).calls,
      c.path_id = none ∧
      c.body = .obj [("email_confirmed_at", .str ("2024-06-01T00:00:00" ++ "Z"))] :=
  fix_missing_id_update
    (.arr [.obj [("email", .str "a@x.com")]])
    "2024-06-01T00:00:00" (fun _ => 200)
    [.obj [("email", .str "a@x.com")]]
    [("email", .str "a@x.com")]
    ⟨false,
      [⟨none, .obj [("email_confirmed_at", .str "2024-06-01T00:00:00Z")]⟩],
      1, 0, 0, [.str "a@x.com"]⟩
    rfl rfl (by simp) rfl rfl

/-- C9: the reset tool does not guard against a missing `id` either: when
the first record matching the target email has no `id` key, the update
call is still issued with the missing identifier as the URL path segment
value. -/
theorem reset_missing_id_update (email pw : String) (data : JValue) (us : Nat)
    (users : List JValue) (u : JValue) (r : ResetResult)
    (husers : resetUsers data = some users)
    (hfind : users.find? (matchesEmail email) = some u)
    (hid : recordId u = none)
    (hrun : reset_password email pw 200 data us = some r) :
    r.calls = [⟨none, .obj [("password", .str pw)]⟩] := by
  have hr := reset_run_first_match email pw data us users u r husers hfind hrun
  subst hr
  simp [hid]

/-- C9 witness: a matching record without `id` yields the password update
call with the missing path identifier. -/
theorem reset_missing_id_update_witness :
    (⟨[⟨none, .obj [("password", .str "pw")]⟩],
      .updated 200⟩ : ResetResult).calls = [⟨none, .obj [("password", .str "pw")]⟩] :=
  reset_missing_id_update "a@x.com" "pw"
    (.arr [.obj [("email", .str "a@x.com")]]) 200
    [.obj [("email", .str "a@x.com")]]
    (.obj [("email", .str "a@x.com")])
    ⟨[⟨none, .obj [("password", .str "pw")]⟩], .updated 200⟩
    rfl rfl rfl rfl

/-- C10: a dict record of the fetched list without an `email` key is not
skipped by the fixer: it is processed under the placeholder label
`unknown`, it is counted by the tallies (which sum to the processed-record
count), and when its confirmation field is falsy an update call is issued
for it. -/
theorem fix_missing_email_processed (data : JValue) (now : String) (upd : Nat → Nat)
    (users : List JValue) (kvs : List (String × JValue)) (r : FixResult)
    (husers : pyIter (fixUsersVal data) = some users)
    (hrun : fix_email_confirmation 200 data now upd = some r)
    (hmem : JValue.obj kvs ∈ users)
    (hemail : lookupKey "email" kvs = none)
    (hconf : optTruthy (lookupKey "email_confirmed_at" kvs) = false) :
    JValue.str "unknown" ∈ r.labels ∧
    r.fixed_count + r.already_confirmed + r.errors = r.labels.length ∧
    ∃ c ∈ r.calls, c.path_id = lookupKey "id" kvs ∧
      c.body = .obj [("email_confirmed_at", .str (now ++ "Z"))] := by
  have hr := fix_run_eq data now upd users r husers hrun
  subst hr
  refine ⟨?_, ?_, ?_⟩
  · rw [foldl_fixStep_labels]
    have hl : labelFor (.obj kvs) = some (.str "unknown") := by
      simp [labelFor, hemail]
    exact List.mem_filterMap.mpr ⟨.obj kvs, hmem, hl⟩
  · rw [foldl_fixStep_sum, foldl_fixStep_labels]
    simp [length_filterMap_labelFor]
  · rw [foldl_fixStep_calls]
    have hc : callFor now (.obj kvs) =
        some ⟨lookupKey "id" kvs, .obj [("email_confirmed_at", .str (now ++ "Z"))]⟩ := by
      simp [callFor, hconf]
    exact ⟨⟨lookupKey "id" kvs, .obj [("email_confirmed_at", .str (now ++ "Z"))]⟩,
      List.mem_filterMap.mpr ⟨.obj kvs, hmem, hc⟩, rfl, rfl⟩

/-- C10 witness: a record with only an `id` field is processed under the
`unknown` label, counted, and updated. -/
theorem fix_missing_email_processed_witness :
    JValue.str "unknown" ∈ (⟨false,
      [⟨some (.str "u1"), .obj [("email_confirmed_at", .str "2024-06-01T00:00:00Z")]⟩],
      1, 0, 0, [.str "unknown"]⟩ : FixResult).labels ∧
    (⟨false,
      [⟨some (.str "u1"), .obj [("email_confirmed_at", .str "2024-06-01T00:00:00Z")]⟩],
      1, 0, 0, [.str "unknown"]⟩ : FixResult).fixed_count +
      (⟨false,
        [⟨some (.str "u1"), .obj [("email_confirmed_at", .str "2024-06-01T00:00:00Z")]⟩],
        1, 0, 0, [.str "unknown"]⟩ : FixResult).already_confirmed +
      (⟨false,
        [⟨some (.str "u1"), .obj [("email_confirmed_at", .str "2024-06-01T00:00:00Z")]⟩],
        1, 0, 0, [.str "unknown"]⟩ : FixResult).errors =
      (⟨false,
        [⟨some (.str "u1"), .obj [("email_confirmed_at", .str "2024-06-01T00:00:00Z")]⟩],
        1, 0, 0, [.str "unknown"]⟩ : FixResult).labels.length ∧
    ∃ c ∈ (⟨false,
      [⟨some (.str "u1"), .obj [("email_confirmed_at", .str "2024-06-01T00:00:00Z")]⟩],
      1, 0, 0, [.str "unknown"]⟩ : FixResult).calls,
      c.path_id = lookupKey "id" [("id", JValue.str "u1")] ∧
      c.body = .obj [("email_confirmed_at", .str ("2024-06-01T00:00:00" ++ "Z"))] :=
  fix_missing_email_processed
    (.arr [.obj [("id", .str "u1")]])
    "2024-06-01T00:00:00" (fun _ => 200)
    [.obj [("id", .str "u1")]]
    [("id", .str "u1")]
    ⟨false,
      [⟨some (.str "u1"), .obj [("email_confirmed_at", .str "2024-06-01T00:00:00Z")]⟩],
      1, 0, 0, [.str "unknown"]⟩
    rfl rfl (by simp) rfl rfl
